import Mathlib

/-!
Verification development for the feature-building and span-pooling core of
the mcl-wic repository (file src/models/xlmr.py).

The embedding models:
- `convert_dataset_to_features` (lines 155-258): the Feature Builder, a pure
  fold over the example list threading the feature list and the too-long
  counter, with Python exceptions modelled as `Except BuildError`;
- `extract_features` (lines 120-152): span pooling and merging for a single
  example, over rational vectors, with the unrecognized-merge fall-through
  (an unassigned local in the source) modelled as `Option.none`;
- the classification-head input-size computation of `__init__` (lines 67-73).

The tokenizer is an external service (spec section 2) and is therefore a
structure of abstract functions; `convert_tokens_to_ids` maps each token to
an id, as the adapter contract states.
-/

set_option linter.unusedVariables false
set_option linter.unnecessarySeqFocus false

namespace MclWic

/-- Tokenizer Adapter (external service): tokenize, token-to-id conversion
and the special-token constants used by the builder. -/
structure Tokenizer where
  tokenize : List Char → List String
  tokenToId : String → Nat
  cls_token : String
  sep_token : String
  pad_token : String
  mask_token : String

/-- The configuration dictionary `local_config`, restricted to the keys the
claims need. -/
structure LocalConfig where
  max_seq_len : Nat
  pool_type : String
  target_embeddings : String
  mask_syns : Bool
  symmetric : Bool
  train_scd : Bool
  loss : String
  syns : List String
deriving DecidableEq

/-- A source example: two sentences with character-span boundaries, a
categorical label, a continuous score and a part-of-speech tag (the tag is
read but not used downstream). -/
structure Example where
  start_1 : Nat
  end_1 : Nat
  text_1 : List Char
  start_2 : Nat
  end_2 : Nat
  text_2 : List Char
  label : String
  score : Int
  pos : String
deriving DecidableEq

/-- The Feature Record class WiCFeature2 of the source (lines 42-49).
The back-reference field is named `example` in the source; that word is a
keyword here, so the field is `ex_ref`. -/
structure WiCFeature2 where
  input_ids : List Nat
  input_mask : List Nat
  token_type_ids : List Nat
  syn_label : Int
  positions : List Nat
  ex_ref : Example
deriving DecidableEq

/-- Python exceptions that `convert_dataset_to_features` can raise:
the scd-loss assertion (line 235), the KeyError of `syn_label_to_id[label]`
(line 252), and the ZeroDivisionError of the final percentage report
(line 257). -/
inductive BuildError where
  | assertScdLoss
  | labelKeyError
  | zeroDivision
deriving DecidableEq

/-- One orientation of an example: the tuple
(st1, end1, sent1, st2, end2, sent2) iterated at line 169. -/
structure Orient where
  st1 : Nat
  en1 : Nat
  sent1 : List Char
  st2 : Nat
  en2 : Nat
  sent2 : List Char
deriving DecidableEq

/-- Orientation index 0: role A (text_1) first. -/
def orient0 (ex : Example) : Orient :=
  ⟨ex.start_1, ex.end_1, ex.text_1, ex.start_2, ex.end_2, ex.text_2⟩

/-- Orientation index 1: roles swapped, text_2 first. -/
def orient1 (ex : Example) : Orient :=
  ⟨ex.start_2, ex.end_2, ex.text_2, ex.start_1, ex.end_1, ex.text_1⟩

/-- The orientations actually processed for one example. The source
enumerates [orient0, orient1] and executes
`if not symmetric and i == 0: continue` (line 170), so with
`symmetric = false` only orient1 (text_2 first) is processed. -/
def orientationsOf (cfg : LocalConfig) (ex : Example) : List Orient :=
  if cfg.symmetric then [orient0 ex, orient1 ex] else [orient1 ex]

/-- Python slice s[a:b] on a character list (non-negative indices). -/
def pySlice (s : List Char) (a b : Nat) : List Char :=
  (s.drop a).take (b - a)

/-- Models the dict comprehension building `syns_lab_to_pos` (line 164):
the last index at which lab occurs in syns. Looking up an absent label
raises KeyError in the source; all theorems use configurations where the
label occurs. -/
def synsLabToPos (syns : List String) (lab : String) : Nat :=
  (List.range syns.length).foldl (fun acc i => if syns.getD i "" = lab then i else acc) 0

/-- Tokens inserted for a span (lines 182-186 and 195-199): the tokenized
span, or an equal-length run of mask tokens when `mask_syns` is set. -/
def spanTokens (cfg : LocalConfig) (tok : Tokenizer) (target : List Char) : List String :=
  if cfg.mask_syns then
    List.replicate (tok.tokenize target).length tok.mask_token
  else tok.tokenize target

/-- Tokens for an optional context block: `if left: tokens += tokenize(left)`. -/
def optTokens (tok : Tokenizer) (s : List Char) : List String :=
  if s.isEmpty then [] else tok.tokenize s

/-- Tokens for an optional trailing block with separator:
`if right: tokens += tokenize(right) + [sep_token]`. -/
def optTokensSep (tok : Tokenizer) (s : List Char) : List String :=
  if s.isEmpty then [] else tok.tokenize s ++ [tok.sep_token]

/-- Token sequence after the cls token and the first left context
(lines 173-180); its length is the recorded Target start. -/
def tokensA (cfg : LocalConfig) (tok : Tokenizer) (o : Orient) : List String :=
  [tok.cls_token] ++ optTokens tok (o.sent1.take o.st1)

/-- Token sequence after inserting the first span (lines 182-186); its
length is the recorded Target end. -/
def tokensB (cfg : LocalConfig) (tok : Tokenizer) (o : Orient) : List String :=
  tokensA cfg tok o ++ spanTokens cfg tok (pySlice o.sent1 o.st1 o.en1)

/-- Token sequence after the first right context with separator and the
second left context (lines 189-192); its length is the recorded Synonym
start. -/
def tokensC (cfg : LocalConfig) (tok : Tokenizer) (o : Orient) : List String :=
  tokensB cfg tok o ++ optTokensSep tok (o.sent1.drop o.en1) ++ optTokens tok (o.sent2.take o.st2)

/-- Token sequence after inserting the second span (lines 195-199); its
length is the recorded Synonym end. -/
def tokensD (cfg : LocalConfig) (tok : Tokenizer) (o : Orient) : List String :=
  tokensC cfg tok o ++ spanTokens cfg tok (pySlice o.sent2 o.st2 o.en2)

/-- The complete token sequence of one orientation (line 201-202 adds the
trailing context and final separator). -/
def tokensE (cfg : LocalConfig) (tok : Tokenizer) (o : Orient) : List String :=
  tokensD cfg tok o ++ optTokensSep tok (o.sent2.drop o.en2)

/-- The assembled token sequence and Position Table of one orientation
(lines 173-202): positions is `[0] * (2 * len(syns))` with the four
checkpoint lengths written at the Target and Synonym slots, in the order
the source writes them (lines 181, 187, 194, 200). -/
def buildTokens (cfg : LocalConfig) (tok : Tokenizer) (o : Orient) : List String × List Nat :=
  let tIdx := synsLabToPos cfg.syns "Target"
  let sIdx := synsLabToPos cfg.syns "Synonym"
  let positions :=
    (((( List.replicate (2 * cfg.syns.length) 0
       ).set (2 * tIdx) (tokensA cfg tok o).length
       ).set (2 * tIdx + 1) (tokensB cfg tok o).length
       ).set (2 * sIdx) (tokensC cfg tok o).length
       ).set (2 * sIdx + 1) (tokensD cfg tok o).length
  (tokensE cfg tok o, positions)

/-- The id sequence after the truncation of lines 205-206. -/
def truncIds (cfg : LocalConfig) (tok : Tokenizer) (tokens : List String) : List Nat :=
  if (tokens.map tok.tokenToId).length > cfg.max_seq_len then
    (tokens.map tok.tokenToId).take cfg.max_seq_len
  else tokens.map tok.tokenToId

/-- The padded id sequence of lines 213-214: pad-token ids up to
max_seq_len. -/
def paddedIds (cfg : LocalConfig) (tok : Tokenizer) (tokens : List String) : List Nat :=
  truncIds cfg tok tokens ++
    List.replicate (cfg.max_seq_len - (truncIds cfg tok tokens).length)
      (tok.tokenToId tok.pad_token)

/-- The attention mask of lines 211 and 215: ones over the (possibly
truncated) ids, zeros over the padding. -/
def builtMask (cfg : LocalConfig) (tok : Tokenizer) (tokens : List String) : List Nat :=
  List.replicate (truncIds cfg tok tokens).length 1 ++
    List.replicate (cfg.max_seq_len - (truncIds cfg tok tokens).length) 0

/-- The discard condition of lines 205-209: the sequence is over-long and
`max(positions) > max_seq_len - 1`; the comparison is over Python integers,
hence the cast to Int. -/
def discardCond (cfg : LocalConfig) (tok : Tokenizer)
    (tokens : List String) (positions : List Nat) : Bool :=
  decide ((tokens.map tok.tokenToId).length > cfg.max_seq_len) &&
  decide (((positions.foldl max 0 : Nat) : Int) > (cfg.max_seq_len : Int) - 1)

/-- The dict `syn_label_to_id = {T: 1, F: 0}` (line 163); other labels
raise KeyError. -/
def synLabelToId (lab : String) : Option Int :=
  if lab = "T" then some 1 else if lab = "F" then some 0 else none

/-- The Feature Record assembled at lines 236-256. -/
def mkFeature (cfg : LocalConfig) (tok : Tokenizer) (ex : Example)
    (tokens : List String) (positions : List Nat) (lab : Int) : WiCFeature2 :=
  { input_ids := paddedIds cfg tok tokens
    input_mask := builtMask cfg tok tokens
    token_type_ids := List.replicate cfg.max_seq_len 0
    syn_label := lab
    positions := positions
    ex_ref := ex }

/-- Lines 204-256 for one orientation, after token assembly: the Bool is
whether the too-long counter is incremented; the Except carries the
scd-loss assertion and the label KeyError; `Option.none` is the `continue`
that discards the record. -/
def finalizeOrientation (cfg : LocalConfig) (tok : Tokenizer) (ex : Example)
    (tokens : List String) (positions : List Nat) :
    Bool × Except BuildError (Option WiCFeature2) :=
  let tooLong := decide ((tokens.map tok.tokenToId).length > cfg.max_seq_len)
  if discardCond cfg tok tokens positions then (tooLong, .ok none)
  else if cfg.train_scd then
    if cfg.loss = "mse_loss" then
      (tooLong, .ok (some (mkFeature cfg tok ex tokens positions ex.score)))
    else (tooLong, .error .assertScdLoss)
  else
    match synLabelToId ex.label with
    | some lab => (tooLong, .ok (some (mkFeature cfg tok ex tokens positions lab)))
    | none => (tooLong, .error .labelKeyError)

/-- One full orientation: token assembly followed by finalization. -/
def processOrientation (cfg : LocalConfig) (tok : Tokenizer) (ex : Example)
    (o : Orient) : Bool × Except BuildError (Option WiCFeature2) :=
  finalizeOrientation cfg tok ex (buildTokens cfg tok o).1 (buildTokens cfg tok o).2

/-- The inner loop over the orientations of one example, threading the
feature list and the too-long counter. -/
def orientLoop (cfg : LocalConfig) (tok : Tokenizer) (ex : Example) :
    List Orient → List WiCFeature2 → Nat → Except BuildError (List WiCFeature2 × Nat)
  | [], fs, n => .ok (fs, n)
  | o :: os, fs, n =>
    let step := processOrientation cfg tok ex o
    let n1 := if step.1 then n + 1 else n
    match step.2 with
    | .error e => .error e
    | .ok none => orientLoop cfg tok ex os fs n1
    | .ok (some f) => orientLoop cfg tok ex os (fs ++ [f]) n1

/-- The outer loop over the examples (line 167). -/
def convertLoop (cfg : LocalConfig) (tok : Tokenizer) :
    List Example → List WiCFeature2 → Nat → Except BuildError (List WiCFeature2 × Nat)
  | [], fs, n => .ok (fs, n)
  | ex :: rest, fs, n =>
    match orientLoop cfg tok ex (orientationsOf cfg ex) fs n with
    | .error e => .error e
    | .ok (fs2, n2) => convertLoop cfg tok rest fs2 n2

/-- The Feature Builder `convert_dataset_to_features` (lines 155-258).
After the loop, line 257 evaluates
`num_too_long_exs / len(features) * 100.0`, which raises
ZeroDivisionError when no record was produced. -/
def convert_dataset_to_features (cfg : LocalConfig) (tok : Tokenizer)
    (examples : List Example) : Except BuildError (List WiCFeature2 × Nat) :=
  match convertLoop cfg tok examples [] 0 with
  | .error e => .error e
  | .ok (fs, n) => if fs.isEmpty then .error .zeroDivision else .ok (fs, n)

/-- Models the str.startswith test of the source. The byte-based
String.startsWith of core is extensionally the same predicate but does not
evaluate inside the kernel, so the character-list prefix test is used. -/
def pyStartswith (s pre : String) : Bool := pre.toList.isPrefixOf s.toList

/-- Element-wise sum of two hidden vectors. -/
def vadd (a b : List ℚ) : List ℚ := List.zipWith (· + ·) a b

/-- Element-wise maximum of two hidden vectors. -/
def vmaxp (a b : List ℚ) : List ℚ := List.zipWith max a b

/-- Sum of a list of rows; the torch reduction over an empty slice is
NaN or an error, which the spec declares undefined, so theorems only use
nonempty slices. -/
def vsumRows : List (List ℚ) → List ℚ
  | [] => []
  | a :: t => t.foldl vadd a

/-- The `.mean(dim=0)` reduction of a slice of rows. -/
def vmeanRows (l : List (List ℚ)) : List ℚ :=
  (vsumRows l).map (· / (l.length : ℚ))

/-- The `.max(dim=0)` reduction of a slice of rows. -/
def vmaxRows : List (List ℚ) → List ℚ
  | [] => []
  | a :: t => t.foldl vmaxp a

/-- The row slice `hidden_states[ex_id, start:end]`. -/
def spanSlice (hs : List (List ℚ)) (st en : Nat) : List (List ℚ) :=
  (hs.drop st).take (en - st)

/-- The Span Pooler: the pool_type dispatch of lines 127-141.
Values mean, max and first are matched exactly; `startswith('combined')`
accepts any string beginning with combined; anything else raises
`ValueError(f'wrong pool_type: ...')`. Indexing past the sequence for
first (or an empty slice for combined, `embs[0]`) is an index error. -/
def poolSpan (pt : String) (hs : List (List ℚ)) (st en : Nat) : Except String (List ℚ) :=
  if pt = "mean" then .ok (vmeanRows (spanSlice hs st en))
  else if pt = "max" then .ok (vmaxRows (spanSlice hs st en))
  else if pt = "first" then
    match hs.get? st with
    | some v => .ok v
    | none => .error "index out of range"
  else if pyStartswith pt "combined" then
    match spanSlice hs st en with
    | [] => .error "index out of range"
    | v :: t => .ok (vmeanRows (v :: t) ++ vmaxRows (v :: t) ++ v)
  else .error ("wrong pool_type: " ++ pt)

/-- The Feature Merger: the target_embeddings dispatch of lines 142-149.
The `norm` argument abstracts the L2 vector norm `emb.norm(dim=-1)`
(irrational in general, an external numeric primitive like the encoder).
The dispatch has no else branch: an unrecognized value leaves
merged_feature unassigned in the source (an UnboundLocalError at line 150),
modelled as `none`. -/
def mergeSpanEmbeddings (norm : List ℚ → ℚ) (mt : String) (e1 e2 : List ℚ) :
    Option (List ℚ) :=
  if mt = "featwise_mul" then some (List.zipWith (· * ·) e1 e2)
  else if mt = "concat" then some (e1 ++ e2)
  else if mt = "featwise_mul_norm" then
    some (List.zipWith (· * ·) (e1.map (· / norm e1)) (e2.map (· / norm e2)))
  else if pyStartswith mt "combined" then
    some (e1 ++ e2 ++ List.zipWith (· * ·) e1 e2)
  else none

/-- `extract_features` for a single example (lines 120-151): pool both
spans at the recorded positions, then merge. -/
def extract_features (cfg : LocalConfig) (norm : List ℚ → ℚ) (hs : List (List ℚ))
    (s1 e1 s2 e2 : Nat) : Except String (Option (List ℚ)) :=
  match poolSpan cfg.pool_type hs s1 e1 with
  | .error e => .error e
  | .ok emb1 =>
    match poolSpan cfg.pool_type hs s2 e2 with
    | .error e => .error e
    | .ok emb2 => .ok (mergeSpanEmbeddings norm cfg.target_embeddings emb1 emb2)

/-- The classification-head input size computed in `__init__`
(lines 67-73): the hidden size, tripled when pool_type equals combined
EXACTLY, then doubled or tripled when target_embeddings equals concat or
combined EXACTLY. No validation of either string happens here. -/
def headInputSize (cfg : LocalConfig) (hidden_size : Nat) : Nat :=
  let s1 := if cfg.pool_type = "combined" then hidden_size * 3 else hidden_size
  if cfg.target_embeddings = "concat" then s1 * 2
  else if cfg.target_embeddings = "combined" then s1 * 3
  else s1

/-! Concrete instances used by witnesses and counterexamples. -/

/-- A concrete tokenizer: one token per character, ids 101 for cls,
102 for sep, 1 for pad, 103 for mask, and the character code otherwise. -/
def tok0 : Tokenizer :=
  { tokenize := fun cs => cs.map (fun c => String.mk [c])
    tokenToId := fun s =>
      if s = "<s>" then 101 else if s = "</s>" then 102
      else if s = "<pad>" then 1 else if s = "<mask>" then 103
      else match s.toList with
        | c :: _ => c.toNat
        | [] => 0
    cls_token := "<s>"
    sep_token := "</s>"
    pad_token := "<pad>"
    mask_token := "<mask>" }

/-- A baseline configuration: not symmetric, categorical labels. -/
def cfg1 : LocalConfig :=
  { max_seq_len := 8, pool_type := "mean", target_embeddings := "concat"
    mask_syns := false, symmetric := false, train_scd := false
    loss := "crossentropy_loss", syns := ["Target", "Synonym"] }

/-- A one-character pair of sentences: text_1 is a, text_2 is b, each span
covering the whole sentence. -/
def ex1 : Example :=
  { start_1 := 0, end_1 := 1, text_1 := ['a']
    start_2 := 0, end_2 := 1, text_2 := ['b']
    label := "T", score := 0, pos := "NOUN" }

/-- One-character-longer example used for the truncation scenarios:
text_1 is cd, text_2 is ab, spans on the first character of each. -/
def ex4 : Example :=
  { start_1 := 0, end_1 := 1, text_1 := ['c', 'd']
    start_2 := 0, end_2 := 1, text_2 := ['a', 'b']
    label := "T", score := 0, pos := "NOUN" }

/-- The baseline configuration with max_seq_len 3: the assembled sequence
fits exactly. -/
def cfg3 : LocalConfig := { cfg1 with max_seq_len := 3 }

/-- The baseline configuration with max_seq_len 6: ex4 is over-long by one
token. -/
def cfg4 : LocalConfig := { cfg1 with max_seq_len := 6 }

/-- The baseline configuration with max_seq_len 5. -/
def cfg8 : LocalConfig := { cfg1 with max_seq_len := 5 }

/-- The baseline configuration with train_scd set and a non-regression
loss. -/
def cfg7 : LocalConfig := { cfg1 with train_scd := true }

/-- The baseline configuration with an unknown merge strategy. -/
def cfg5b : LocalConfig := { cfg1 with target_embeddings := "bogus" }

/-- The baseline configuration with a pool_type that begins with combined
but is not combined. -/
def cfgX : LocalConfig := { cfg1 with pool_type := "combinedX" }

/-- The record the builder produces for ex1 under cfg1 (max_seq_len 8). -/
def feat1 : WiCFeature2 :=
  { input_ids := [101, 98, 97, 1, 1, 1, 1, 1]
    input_mask := [1, 1, 1, 0, 0, 0, 0, 0]
    token_type_ids := [0, 0, 0, 0, 0, 0, 0, 0]
    syn_label := 1, positions := [1, 2, 2, 3], ex_ref := ex1 }

/-- The record the builder produces for ex1 under cfg3 (max_seq_len 3). -/
def feat3 : WiCFeature2 :=
  { input_ids := [101, 98, 97]
    input_mask := [1, 1, 1]
    token_type_ids := [0, 0, 0]
    syn_label := 1, positions := [1, 2, 2, 3], ex_ref := ex1 }

/-- The record the builder produces for ex4 under cfg4 (max_seq_len 6,
truncated). -/
def feat4 : WiCFeature2 :=
  { input_ids := [101, 97, 98, 102, 99, 100]
    input_mask := [1, 1, 1, 1, 1, 1]
    token_type_ids := [0, 0, 0, 0, 0, 0]
    syn_label := 1, positions := [1, 2, 4, 5], ex_ref := ex4 }

/-- The record the builder produces for ex1 under cfg8 (max_seq_len 5). -/
def feat8 : WiCFeature2 :=
  { input_ids := [101, 98, 97, 1, 1]
    input_mask := [1, 1, 1, 0, 0]
    token_type_ids := [0, 0, 0, 0, 0]
    syn_label := 1, positions := [1, 2, 2, 3], ex_ref := ex1 }

/-- A placeholder for the external norm primitive in concrete runs whose
merge strategy does not use it. -/
def norm1 : List ℚ → ℚ := fun _ => 1

/-- The width of the merged vector of a single-example extraction, when one
is produced. -/
def mergedWidth (r : Except String (Option (List ℚ))) : Option Nat :=
  match r with
  | .ok (some v) => some v.length
  | _ => none

/-! Supporting lemmas about the Feature Builder. -/

lemma tokensA_length_pos (cfg : LocalConfig) (tok : Tokenizer) (o : Orient) :
    1 ≤ (tokensA cfg tok o).length := by
  simp only [tokensA, List.length_append, List.length_cons, List.length_nil]
  omega

lemma tokensA_le_tokensB (cfg : LocalConfig) (tok : Tokenizer) (o : Orient) :
    (tokensA cfg tok o).length ≤ (tokensB cfg tok o).length := by
  simp only [tokensB, List.length_append]
  omega

lemma tokensB_le_tokensC (cfg : LocalConfig) (tok : Tokenizer) (o : Orient) :
    (tokensB cfg tok o).length ≤ (tokensC cfg tok o).length := by
  simp only [tokensC, List.length_append]
  omega

lemma tokensC_le_tokensD (cfg : LocalConfig) (tok : Tokenizer) (o : Orient) :
    (tokensC cfg tok o).length ≤ (tokensD cfg tok o).length := by
  simp only [tokensD, List.length_append]
  omega

lemma tokensD_le_tokensE (cfg : LocalConfig) (tok : Tokenizer) (o : Orient) :
    (tokensD cfg tok o).length ≤ (tokensE cfg tok o).length := by
  simp only [tokensE, List.length_append]
  omega

lemma buildTokens_positions (cfg : LocalConfig) (tok : Tokenizer) (o : Orient)
    (h : cfg.syns = ["Target", "Synonym"]) :
    (buildTokens cfg tok o).2 =
      [(tokensA cfg tok o).length, (tokensB cfg tok o).length,
       (tokensC cfg tok o).length, (tokensD cfg tok o).length] := by
  unfold buildTokens
  rw [h]
  rfl

lemma truncIds_length_le (cfg : LocalConfig) (tok : Tokenizer) (tokens : List String) :
    (truncIds cfg tok tokens).length ≤ cfg.max_seq_len := by
  unfold truncIds
  split
  · simp [List.length_take]
  · next h => omega

lemma paddedIds_length (cfg : LocalConfig) (tok : Tokenizer) (tokens : List String) :
    (paddedIds cfg tok tokens).length = cfg.max_seq_len := by
  have h := truncIds_length_le cfg tok tokens
  unfold paddedIds
  simp only [List.length_append, List.length_replicate]
  omega

lemma builtMask_length (cfg : LocalConfig) (tok : Tokenizer) (tokens : List String) :
    (builtMask cfg tok tokens).length = cfg.max_seq_len := by
  have h := truncIds_length_le cfg tok tokens
  unfold builtMask
  simp only [List.length_append, List.length_replicate]
  omega

lemma paddedIds_drop (cfg : LocalConfig) (tok : Tokenizer) (tokens : List String) :
    (paddedIds cfg tok tokens).drop (truncIds cfg tok tokens).length =
      List.replicate (cfg.max_seq_len - (truncIds cfg tok tokens).length)
        (tok.tokenToId tok.pad_token) := by
  unfold paddedIds
  exact List.drop_left _ _

lemma finalize_fst (cfg : LocalConfig) (tok : Tokenizer) (ex : Example)
    (tokens : List String) (positions : List Nat) :
    (finalizeOrientation cfg tok ex tokens positions).1 =
      decide ((tokens.map tok.tokenToId).length > cfg.max_seq_len) := by
  unfold finalizeOrientation
  split
  · rfl
  · split
    · split <;> rfl
    · split <;> rfl

lemma finalize_inv (cfg : LocalConfig) (tok : Tokenizer) (ex : Example)
    (tokens : List String) (positions : List Nat) (f : WiCFeature2)
    (h : (finalizeOrientation cfg tok ex tokens positions).2 = .ok (some f)) :
    (∃ lab, f = mkFeature cfg tok ex tokens positions lab) ∧
      discardCond cfg tok tokens positions = false := by
  by_cases hd : discardCond cfg tok tokens positions
  · simp [finalizeOrientation, hd] at h
  · have hd2 : discardCond cfg tok tokens positions = false := by simpa using hd
    refine ⟨?_, hd2⟩
    by_cases ht : cfg.train_scd
    · by_cases hl : cfg.loss = "mse_loss"
      · simp [finalizeOrientation, hd2, ht, hl] at h
        exact ⟨ex.score, h.symm⟩
      · simp [finalizeOrientation, hd2, ht, hl] at h
    · rcases hle : synLabelToId ex.label with _ | lab
      · simp [finalizeOrientation, hd2, ht, hle] at h
      · simp [finalizeOrientation, hd2, ht, hle] at h
        exact ⟨lab, h.symm⟩

lemma finalize_discard_iff (cfg : LocalConfig) (tok : Tokenizer) (ex : Example)
    (tokens : List String) (positions : List Nat)
    (hlong : (tokens.map tok.tokenToId).length > cfg.max_seq_len) :
    ((finalizeOrientation cfg tok ex tokens positions).2 = .ok none ↔
      ((positions.foldl max 0 : Nat) : Int) > (cfg.max_seq_len : Int) - 1) := by
  constructor
  · intro h
    by_contra hc
    have hd2 : discardCond cfg tok tokens positions = false := by
      unfold discardCond
      simp [hc]
    by_cases ht : cfg.train_scd
    · by_cases hl : cfg.loss = "mse_loss"
      · simp [finalizeOrientation, hd2, ht, hl] at h
      · simp [finalizeOrientation, hd2, ht, hl] at h
    · rcases hle : synLabelToId ex.label with _ | lab
      · simp [finalizeOrientation, hd2, ht, hle] at h
      · simp [finalizeOrientation, hd2, ht, hle] at h
  · intro hc
    have hd : discardCond cfg tok tokens positions = true := by
      unfold discardCond
      simp only [Bool.and_eq_true, decide_eq_true_eq]
      exact ⟨hlong, hc⟩
    simp [finalizeOrientation, hd]

lemma finalize_scd (cfg : LocalConfig) (tok : Tokenizer) (ex : Example)
    (tokens : List String) (positions : List Nat)
    (h1 : cfg.train_scd = true) (h2 : cfg.loss ≠ "mse_loss") :
    (finalizeOrientation cfg tok ex tokens positions).2 = .ok none ∨
      (finalizeOrientation cfg tok ex tokens positions).2 = .error .assertScdLoss := by
  by_cases hd : discardCond cfg tok tokens positions
  · left
    simp [finalizeOrientation, hd]
  · right
    have hd2 : discardCond cfg tok tokens positions = false := by simpa using hd
    simp [finalizeOrientation, hd2, h1, h2]

lemma orientLoop_mem {cfg : LocalConfig} {tok : Tokenizer} {ex : Example}
    {P : WiCFeature2 → Prop}
    (hP : ∀ o f, (processOrientation cfg tok ex o).2 = .ok (some f) → P f) :
    ∀ (os : List Orient) (fs : List WiCFeature2) (n : Nat)
      (fs2 : List WiCFeature2) (n2 : Nat),
      orientLoop cfg tok ex os fs n = .ok (fs2, n2) →
      (∀ f ∈ fs, P f) → ∀ f ∈ fs2, P f := by
  intro os
  induction os with
  | nil =>
    intro fs n fs2 n2 h hfs
    simp only [orientLoop, Except.ok.injEq, Prod.mk.injEq] at h
    rw [← h.1]
    exact hfs
  | cons o os ih =>
    intro fs n fs2 n2 h hfs
    rcases hstep : (processOrientation cfg tok ex o).2 with e | of
    · simp only [orientLoop, hstep] at h
      exact Except.noConfusion h
    · rcases of with _ | f
      · simp only [orientLoop, hstep] at h
        exact ih _ _ _ _ h hfs
      · simp only [orientLoop, hstep] at h
        refine ih _ _ _ _ h ?_
        intro g hg
        rcases List.mem_append.mp hg with hg1 | hg2
        · exact hfs g hg1
        · rw [List.mem_singleton.mp hg2]
          exact hP o f hstep

lemma convertLoop_mem {cfg : LocalConfig} {tok : Tokenizer}
    {P : WiCFeature2 → Prop}
    (hP : ∀ ex o f, (processOrientation cfg tok ex o).2 = .ok (some f) → P f) :
    ∀ (exs : List Example) (fs : List WiCFeature2) (n : Nat)
      (fs2 : List WiCFeature2) (n2 : Nat),
      convertLoop cfg tok exs fs n = .ok (fs2, n2) →
      (∀ f ∈ fs, P f) → ∀ f ∈ fs2, P f := by
  intro exs
  induction exs with
  | nil =>
    intro fs n fs2 n2 h hfs
    simp only [convertLoop, Except.ok.injEq, Prod.mk.injEq] at h
    rw [← h.1]
    exact hfs
  | cons ex rest ih =>
    intro fs n fs2 n2 h hfs
    rcases hstep : orientLoop cfg tok ex (orientationsOf cfg ex) fs n with e | ⟨fs1, n1⟩
    · simp only [convertLoop, hstep] at h
      exact Except.noConfusion h
    · simp only [convertLoop, hstep] at h
      exact ih _ _ _ _ h (orientLoop_mem (fun o f => hP ex o f) _ _ _ _ _ hstep hfs)

lemma convert_mem {cfg : LocalConfig} {tok : Tokenizer}
    {P : WiCFeature2 → Prop}
    (hP : ∀ ex o f, (processOrientation cfg tok ex o).2 = .ok (some f) → P f)
    (exs : List Example) (fs : List WiCFeature2) (n : Nat)
    (h : convert_dataset_to_features cfg tok exs = .ok (fs, n)) :
    ∀ f ∈ fs, P f := by
  rcases h0 : convertLoop cfg tok exs [] 0 with e | ⟨fs0, n0⟩
  · simp [convert_dataset_to_features, h0] at h
  · rw [convert_dataset_to_features, h0] at h
    by_cases he : fs0.isEmpty
    · simp [he] at h
    · simp only [he, if_false, Except.ok.injEq, Prod.mk.injEq, Bool.false_eq_true] at h
      rw [← h.1]
      exact convertLoop_mem hP _ _ _ _ _ h0 (by simp)

/-! Supporting lemmas about pooling and merging widths. -/

lemma zipWith_foldl_length (g : ℚ → ℚ → ℚ) (h : Nat) :
    ∀ (t : List (List ℚ)) (a : List ℚ), a.length = h → (∀ r ∈ t, r.length = h) →
      (t.foldl (fun x y => List.zipWith g x y) a).length = h := by
  intro t
  induction t with
  | nil =>
    intro a ha _
    simpa using ha
  | cons b t ih =>
    intro a ha hr
    simp only [List.foldl_cons]
    apply ih
    · rw [List.length_zipWith, ha, hr b (by simp)]
      omega
    · intro r hrr
      exact hr r (by simp [hrr])

lemma vsumRows_length (h : Nat) (l : List (List ℚ)) (hne : l ≠ [])
    (hl : ∀ r ∈ l, r.length = h) : (vsumRows l).length = h := by
  match l, hne with
  | a :: t, _ =>
    show (t.foldl vadd a).length = h
    exact zipWith_foldl_length (· + ·) h t a (hl a (by simp))
      (fun r hr => hl r (by simp [hr]))

lemma vmaxRows_length (h : Nat) (l : List (List ℚ)) (hne : l ≠ [])
    (hl : ∀ r ∈ l, r.length = h) : (vmaxRows l).length = h := by
  match l, hne with
  | a :: t, _ =>
    show (t.foldl vmaxp a).length = h
    exact zipWith_foldl_length max h t a (hl a (by simp))
      (fun r hr => hl r (by simp [hr]))

lemma vmeanRows_length (h : Nat) (l : List (List ℚ)) (hne : l ≠ [])
    (hl : ∀ r ∈ l, r.length = h) : (vmeanRows l).length = h := by
  unfold vmeanRows
  rw [List.length_map]
  exact vsumRows_length h l hne hl

lemma spanSlice_length (hs : List (List ℚ)) (st en : Nat)
    (h1 : st < en) (h2 : en ≤ hs.length) :
    (spanSlice hs st en).length = en - st := by
  unfold spanSlice
  rw [List.length_take, List.length_drop]
  omega

lemma spanSlice_ne_nil (hs : List (List ℚ)) (st en : Nat)
    (h1 : st < en) (h2 : en ≤ hs.length) : spanSlice hs st en ≠ [] := by
  apply List.length_pos.mp
  rw [spanSlice_length hs st en h1 h2]
  omega

lemma spanSlice_rows (hs : List (List ℚ)) (st en h : Nat)
    (hr : ∀ r ∈ hs, r.length = h) : ∀ r ∈ spanSlice hs st en, r.length = h := by
  intro r hrr
  exact hr r (List.drop_subset _ _ (List.take_subset _ _ hrr))

lemma poolSpan_width (pt : String) (hs : List (List ℚ)) (st en h : Nat)
    (hp : pt = "mean" ∨ pt = "max" ∨ pt = "first" ∨ pt = "combined")
    (hr : ∀ r ∈ hs, r.length = h) (h1 : st < en) (h2 : en ≤ hs.length) :
    ∃ v, poolSpan pt hs st en = .ok v ∧
      v.length = (if pt = "combined" then 3 * h else h) := by
  have hsr : ∀ r ∈ spanSlice hs st en, r.length = h := spanSlice_rows hs st en h hr
  have hne : spanSlice hs st en ≠ [] := spanSlice_ne_nil hs st en h1 h2
  rcases hp with rfl | rfl | rfl | rfl
  · refine ⟨_, rfl, ?_⟩
    rw [if_neg (by decide)]
    exact vmeanRows_length h _ hne hsr
  · refine ⟨_, rfl, ?_⟩
    rw [if_neg (by decide)]
    exact vmaxRows_length h _ hne hsr
  · have hst : st < hs.length := lt_of_lt_of_le h1 h2
    refine ⟨hs.get ⟨st, hst⟩, ?_, ?_⟩
    · show (match hs.get? st with
        | some v => Except.ok v
        | none => Except.error "index out of range") = _
      rw [List.get?_eq_get hst]
    · rw [if_neg (by decide)]
      exact hr _ (hs.get_mem st hst)
  · obtain ⟨v, t, hvt⟩ := List.exists_cons_of_ne_nil hne
    have hmean : (vmeanRows (v :: t)).length = h := by
      rw [← hvt]
      exact vmeanRows_length h _ hne hsr
    have hmax : (vmaxRows (v :: t)).length = h := by
      rw [← hvt]
      exact vmaxRows_length h _ hne hsr
    have hv : v.length = h := hsr v (by rw [hvt]; simp)
    refine ⟨vmeanRows (v :: t) ++ vmaxRows (v :: t) ++ v, ?_, ?_⟩
    · show poolSpan "combined" hs st en = _
      have : poolSpan "combined" hs st en =
          (match spanSlice hs st en with
           | [] => Except.error "index out of range"
           | v :: t => Except.ok (vmeanRows (v :: t) ++ vmaxRows (v :: t) ++ v)) := rfl
      rw [this, hvt]
    · rw [if_pos rfl]
      simp only [List.length_append, hmean, hmax, hv]
      omega

lemma merge_width (norm : List ℚ → ℚ) (mt : String) (e1 e2 : List ℚ) (w : Nat)
    (hm : mt = "featwise_mul" ∨ mt = "concat" ∨ mt = "featwise_mul_norm" ∨ mt = "combined")
    (h1 : e1.length = w) (h2 : e2.length = w) :
    ∃ v, mergeSpanEmbeddings norm mt e1 e2 = some v ∧
      v.length = (if mt = "concat" then 2 * w
                  else if mt = "combined" then 3 * w else w) := by
  rcases hm with rfl | rfl | rfl | rfl
  · refine ⟨_, rfl, ?_⟩
    rw [if_neg (by decide), if_neg (by decide), List.length_zipWith, h1, h2]
    omega
  · refine ⟨_, rfl, ?_⟩
    rw [if_pos rfl, List.length_append, h1, h2]
    omega
  · refine ⟨_, rfl, ?_⟩
    rw [if_neg (by decide), if_neg (by decide), List.length_zipWith,
      List.length_map, List.length_map, h1, h2]
    omega
  · refine ⟨_, rfl, ?_⟩
    rw [if_neg (by decide), if_pos rfl, List.length_append, List.length_append,
      List.length_zipWith, h1, h2]
    omega

lemma headInputSize_eq (cfg : LocalConfig) (h : Nat) :
    headInputSize cfg h =
      (if cfg.target_embeddings = "concat" then 2
       else if cfg.target_embeddings = "combined" then 3 else 1) *
      ((if cfg.pool_type = "combined" then 3 else 1) * h) := by
  unfold headInputSize
  by_cases hc : cfg.target_embeddings = "concat"
  · by_cases hp : cfg.pool_type = "combined" <;> simp [hc, hp] <;> ring
  · by_cases hcb : cfg.target_embeddings = "combined"
    · by_cases hp : cfg.pool_type = "combined" <;> simp [hc, hcb, hp] <;> ring
    · by_cases hp : cfg.pool_type = "combined" <;> simp [hc, hcb, hp] <;> ring

/-! Lemmas for the scd-loss assertion: under train_scd with a
non-regression loss every orientation that reaches record construction
aborts, so the loops never extend the feature list. -/

lemma orientLoop_scd (cfg : LocalConfig) (tok : Tokenizer) (ex : Example)
    (h1 : cfg.train_scd = true) (h2 : cfg.loss ≠ "mse_loss") :
    ∀ (os : List Orient) (fs : List WiCFeature2) (n : Nat),
      (∃ n2, orientLoop cfg tok ex os fs n = .ok (fs, n2)) ∨
      orientLoop cfg tok ex os fs n = .error .assertScdLoss := by
  intro os
  induction os with
  | nil =>
    intro fs n
    exact .inl ⟨n, rfl⟩
  | cons o os ih =>
    intro fs n
    rcases finalize_scd cfg tok ex (buildTokens cfg tok o).1 (buildTokens cfg tok o).2 h1 h2
      with hs | hs
    · have hs2 : (processOrientation cfg tok ex o).2 = .ok none := hs
      rcases ih fs (if (processOrientation cfg tok ex o).1 then n + 1 else n)
        with ⟨n2, hok⟩ | herr
      · left
        refine ⟨n2, ?_⟩
        simp only [orientLoop, hs2]
        exact hok
      · right
        simp only [orientLoop, hs2]
        exact herr
    · have hs2 : (processOrientation cfg tok ex o).2 = .error .assertScdLoss := hs
      right
      simp only [orientLoop, hs2]

lemma convertLoop_scd (cfg : LocalConfig) (tok : Tokenizer)
    (h1 : cfg.train_scd = true) (h2 : cfg.loss ≠ "mse_loss") :
    ∀ (exs : List Example) (fs : List WiCFeature2) (n : Nat),
      (∃ n2, convertLoop cfg tok exs fs n = .ok (fs, n2)) ∨
      convertLoop cfg tok exs fs n = .error .assertScdLoss := by
  intro exs
  induction exs with
  | nil =>
    intro fs n
    exact .inl ⟨n, rfl⟩
  | cons ex rest ih =>
    intro fs n
    rcases orientLoop_scd cfg tok ex h1 h2 (orientationsOf cfg ex) fs n with ⟨n2, hok⟩ | herr
    · rcases ih fs n2 with ⟨n3, hok2⟩ | herr2
      · left
        refine ⟨n3, ?_⟩
        simp only [convertLoop, hok]
        exact hok2
      · right
        simp only [convertLoop, hok]
        exact herr2
    · right
      simp only [convertLoop, herr]

/-- For a kept record, the largest checkpoint length (the Synonym end,
which dominates the other three positions) is at most max_seq_len: either
the sequence fitted, or the kept-despite-truncation branch bounds the
position maximum by max_seq_len - 1. -/
lemma kept_posD_le (cfg : LocalConfig) (tok : Tokenizer) (o : Orient)
    (hsyns : cfg.syns = ["Target", "Synonym"])
    (hd : discardCond cfg tok (buildTokens cfg tok o).1 (buildTokens cfg tok o).2 = false) :
    (tokensD cfg tok o).length ≤ cfg.max_seq_len := by
  by_cases hlong : ((buildTokens cfg tok o).1.map tok.tokenToId).length > cfg.max_seq_len
  · have hb : ¬((((buildTokens cfg tok o).2.foldl max 0 : Nat) : Int) >
        (cfg.max_seq_len : Int) - 1) := by
      intro hc
      have hdt : discardCond cfg tok (buildTokens cfg tok o).1 (buildTokens cfg tok o).2 = true := by
        unfold discardCond
        simp only [Bool.and_eq_true, decide_eq_true_eq]
        exact ⟨hlong, hc⟩
      rw [hdt] at hd
      exact Bool.noConfusion hd
    have hfold : (buildTokens cfg tok o).2.foldl max 0 =
        max (max (max (max 0 (tokensA cfg tok o).length) (tokensB cfg tok o).length)
          (tokensC cfg tok o).length) (tokensD cfg tok o).length := by
      rw [buildTokens_positions cfg tok o hsyns]
      rfl
    have hle : (tokensD cfg tok o).length ≤ (buildTokens cfg tok o).2.foldl max 0 := by
      rw [hfold]
      exact le_max_right _ _
    omega
  · have hDE : (tokensD cfg tok o).length ≤ (tokensE cfg tok o).length :=
      tokensD_le_tokensE cfg tok o
    have hmap : ((buildTokens cfg tok o).1.map tok.tokenToId).length =
        (tokensE cfg tok o).length := by
      rw [List.length_map]
      rfl
    omega

/-! Claim theorems. -/

/-- C2: the claim says reporting the too-long percentage over zero produced
records does not raise a division error. In the source, line 257 evaluates
`num_too_long_exs / len(features) * 100.0` unconditionally, so a pass that
produces zero records (here: an empty corpus) raises ZeroDivisionError.
This theorem evaluates the Feature Builder at that failing input. -/
theorem C2_zero_records_raises_division_error (cfg : LocalConfig) (tok : Tokenizer) :
    convert_dataset_to_features cfg tok [] = .error .zeroDivision := rfl

/-- C5: the claim says an unknown `target_embeddings` value is a fatal
configuration error raised before processing any example. In the source,
`__init__` computes the head input size with no validation (lines 67-78),
and the merge dispatch of `extract_features` has no else branch, so the
unknown value silently falls through and no merged vector is produced
(modelled as the `.ok none` outcome). This theorem evaluates both at the
failing input target_embeddings = bogus. -/
theorem C5_unknown_merge_falls_through :
    extract_features cfg5b norm1 [[1]] 0 1 0 1 = .ok none ∧
    headInputSize cfg5b 4 = 4 := by
  exact ⟨rfl, by decide⟩

/-- C6 (amended): every pool_type other than mean, max, first and strings
beginning with combined makes the Span Pooler raise
`ValueError(f'wrong pool_type: ...')`, identifying the invalid value. The
original claim is falsified by strings such as combinedX, which select the
combined pooling behavior (see the counterexample). -/
theorem C6_unknown_pool_type_raises (pt : String) (hs : List (List ℚ)) (st en : Nat)
    (h1 : pt ≠ "mean") (h2 : pt ≠ "max") (h3 : pt ≠ "first")
    (h4 : pyStartswith pt "combined" = false) :
    poolSpan pt hs st en = .error ("wrong pool_type: " ++ pt) := by
  unfold poolSpan
  simp [h1, h2, h3, h4]

/-- C6 witness: the amended theorem applied at the concrete value bogus. -/
theorem C6_unknown_pool_type_raises_witness :
    poolSpan "bogus" [[1]] 0 1 = .error ("wrong pool_type: " ++ "bogus") :=
  C6_unknown_pool_type_raises "bogus" [[1]] 0 1 (by decide) (by decide) (by decide) (by decide)

/-- C6 counterexample: combinedX is none of the four recognized strategy
names, yet it selects the combined pooling behavior instead of raising. -/
theorem C6_combined_prefix_selects_pooling :
    poolSpan "combinedX" [[2]] 0 1 = .ok [2, 2, 2] ∧
    ("combinedX" ∉ (["mean", "max", "first", "combined"] : List String)) := by
  constructor
  · show Except.ok (vmeanRows [[2]] ++ vmaxRows [[2]] ++ [2]) = _
    norm_num [vmeanRows, vsumRows, vmaxRows]
  · decide

/-- C9: with merge strategy concat, the merged vector is exactly the
concatenation of the two pooled vectors; with equal widths its first half
is emb1 and its second half is emb2, untransformed. -/
theorem C9_concat_merge_is_concatenation (norm : List ℚ → ℚ) (e1 e2 : List ℚ)
    (h : e1.length = e2.length) :
    mergeSpanEmbeddings norm "concat" e1 e2 = some (e1 ++ e2) ∧
    (e1 ++ e2).take ((e1 ++ e2).length / 2) = e1 ∧
    (e1 ++ e2).drop ((e1 ++ e2).length / 2) = e2 := by
  have hl : (e1 ++ e2).length / 2 = e1.length := by
    rw [List.length_append, ← h]
    omega
  refine ⟨rfl, ?_, ?_⟩
  · rw [hl]
    exact List.take_left e1 e2
  · rw [hl]
    exact List.drop_left e1 e2

/-- C9 witness: the theorem applied at concrete vectors of width two. -/
theorem C9_concat_merge_witness :
    mergeSpanEmbeddings norm1 "concat" [1, 2] [3, 4] = some ([1, 2] ++ [3, 4]) ∧
    (([1, 2] ++ [3, 4] : List ℚ)).take ((([1, 2] ++ [3, 4] : List ℚ)).length / 2) = [1, 2] ∧
    (([1, 2] ++ [3, 4] : List ℚ)).drop ((([1, 2] ++ [3, 4] : List ℚ)).length / 2) = [3, 4] :=
  C9_concat_merge_is_concatenation norm1 [1, 2] [3, 4] (by decide)

/-- C7: with `train_scd` true and a loss other than mse_loss, the run
always aborts with an error and never returns records: the assertion at
line 235 fires on the first orientation that reaches record construction,
which is before any Feature Record is built; in runs where no orientation
reaches that point the pass still aborts (with the empty-output division
error of line 257), so in every case zero records are delivered. -/
theorem C7_scd_requires_mse_loss (cfg : LocalConfig) (tok : Tokenizer)
    (exs : List Example) (h1 : cfg.train_scd = true) (h2 : cfg.loss ≠ "mse_loss") :
    (∀ fs n, convert_dataset_to_features cfg tok exs ≠ .ok (fs, n)) ∧
    (convert_dataset_to_features cfg tok exs = .error .assertScdLoss ∨
     convert_dataset_to_features cfg tok exs = .error .zeroDivision) := by
  have hmain : convert_dataset_to_features cfg tok exs = .error .assertScdLoss ∨
      convert_dataset_to_features cfg tok exs = .error .zeroDivision := by
    rcases convertLoop_scd cfg tok h1 h2 exs [] 0 with ⟨n2, hok⟩ | herr
    · right
      rw [convert_dataset_to_features, hok]
      rfl
    · left
      rw [convert_dataset_to_features, herr]
  refine ⟨?_, hmain⟩
  intro fs n hcon
  rcases hmain with h | h <;> rw [h] at hcon <;> exact Except.noConfusion hcon

/-- C7 witness: the theorem applied at the concrete configuration cfg7
(train_scd true, crossentropy loss) on a one-example corpus. -/
theorem C7_scd_requires_mse_loss_witness :
    convert_dataset_to_features cfg7 tok0 [ex1] = .error .assertScdLoss ∨
    convert_dataset_to_features cfg7 tok0 [ex1] = .error .zeroDivision :=
  (C7_scd_requires_mse_loss cfg7 tok0 [ex1] rfl (by decide)).2

/-- C8: every produced Feature Record has input_ids and input_mask of
length exactly max_seq_len, the mask being ones over the (possibly
truncated) real tokens followed by zeros, and the ids padded with the pad
token id over the same tail. -/
theorem C8_record_lengths (cfg : LocalConfig) (tok : Tokenizer)
    (exs : List Example) (fs : List WiCFeature2) (n : Nat) (f : WiCFeature2)
    (h : convert_dataset_to_features cfg tok exs = .ok (fs, n)) (hf : f ∈ fs) :
    f.input_ids.length = cfg.max_seq_len ∧ f.input_mask.length = cfg.max_seq_len ∧
    ∃ k, k ≤ cfg.max_seq_len ∧
      f.input_mask = List.replicate k 1 ++ List.replicate (cfg.max_seq_len - k) 0 ∧
      f.input_ids.drop k =
        List.replicate (cfg.max_seq_len - k) (tok.tokenToId tok.pad_token) := by
  refine convert_mem (P := fun g => g.input_ids.length = cfg.max_seq_len ∧
    g.input_mask.length = cfg.max_seq_len ∧
    ∃ k, k ≤ cfg.max_seq_len ∧
      g.input_mask = List.replicate k 1 ++ List.replicate (cfg.max_seq_len - k) 0 ∧
      g.input_ids.drop k =
        List.replicate (cfg.max_seq_len - k) (tok.tokenToId tok.pad_token)) ?_ exs fs n h f hf
  intro ex o g hg
  obtain ⟨⟨lab, rfl⟩, -⟩ := finalize_inv cfg tok ex _ _ g hg
  refine ⟨paddedIds_length cfg tok _, builtMask_length cfg tok _,
    (truncIds cfg tok (buildTokens cfg tok o).1).length,
    truncIds_length_le cfg tok _, rfl, paddedIds_drop cfg tok _⟩

/-- C8 witness: the theorem applied to the concrete run of cfg8 on ex1,
whose single record is feat8. -/
theorem C8_record_lengths_witness :
    feat8.input_ids.length = cfg8.max_seq_len ∧
    feat8.input_mask.length = cfg8.max_seq_len ∧
    ∃ k, k ≤ cfg8.max_seq_len ∧
      feat8.input_mask = List.replicate k 1 ++ List.replicate (cfg8.max_seq_len - k) 0 ∧
      feat8.input_ids.drop k =
        List.replicate (cfg8.max_seq_len - k) (tok0.tokenToId tok0.pad_token) :=
  C8_record_lengths cfg8 tok0 [ex1] [feat8] 0 feat8 rfl (by decide)

/-- C3 (amended): every surviving record has Position Table
`[s1, e1, s2, e2]` with `0 ≤ s1 ≤ e1 ≤ max_seq_len` and
`0 ≤ s2 ≤ e2 ≤ max_seq_len`. The bound of the original claim,
`max_seq_len - 1`, holds only for records kept after truncation; an
untruncated record whose sequence ends exactly at the Synonym span can
survive with an end position equal to max_seq_len (see the
counterexample). -/
theorem C3_positions_within_bounds (cfg : LocalConfig) (tok : Tokenizer)
    (exs : List Example) (fs : List WiCFeature2) (n : Nat) (f : WiCFeature2)
    (hsyns : cfg.syns = ["Target", "Synonym"])
    (h : convert_dataset_to_features cfg tok exs = .ok (fs, n)) (hf : f ∈ fs) :
    ∃ s1 e1 s2 e2, f.positions = [s1, e1, s2, e2] ∧
      s1 ≤ e1 ∧ e1 ≤ cfg.max_seq_len ∧ s2 ≤ e2 ∧ e2 ≤ cfg.max_seq_len := by
  refine convert_mem (P := fun g => ∃ s1 e1 s2 e2, g.positions = [s1, e1, s2, e2] ∧
    s1 ≤ e1 ∧ e1 ≤ cfg.max_seq_len ∧ s2 ≤ e2 ∧ e2 ≤ cfg.max_seq_len) ?_ exs fs n h f hf
  intro ex o g hg
  obtain ⟨⟨lab, rfl⟩, hd⟩ := finalize_inv cfg tok ex _ _ g hg
  have hDle := kept_posD_le cfg tok o hsyns hd
  have hBC := tokensB_le_tokensC cfg tok o
  have hCD := tokensC_le_tokensD cfg tok o
  refine ⟨(tokensA cfg tok o).length, (tokensB cfg tok o).length,
    (tokensC cfg tok o).length, (tokensD cfg tok o).length, ?_,
    tokensA_le_tokensB cfg tok o, by omega, hCD, by omega⟩
  exact buildTokens_positions cfg tok o hsyns

/-- C3 counterexample: under cfg3 (max_seq_len 3) the sequence for ex1 fits
exactly, the record survives, and its Synonym end position 3 is NOT within
max_seq_len - 1 = 2, falsifying the bound of the claim. -/
theorem C3_position_at_max_seq_len_survives :
    convert_dataset_to_features cfg3 tok0 [ex1] = .ok ([feat3], 0) ∧
    feat3.positions = [1, 2, 2, 3] ∧ ¬((3 : Nat) ≤ cfg3.max_seq_len - 1) := by
  exact ⟨rfl, rfl, by decide⟩

/-- C3 witness: the amended theorem applied to the concrete run of cfg8 on
ex1, whose single record is feat8. -/
theorem C3_positions_within_bounds_witness :
    ∃ s1 e1 s2 e2, feat8.positions = [s1, e1, s2, e2] ∧
      s1 ≤ e1 ∧ e1 ≤ cfg8.max_seq_len ∧ s2 ≤ e2 ∧ e2 ≤ cfg8.max_seq_len :=
  C3_positions_within_bounds cfg8 tok0 [ex1] [feat8] 0 feat8 rfl rfl (by decide)

/-- C4 (amended): for an orientation whose converted id sequence exceeds
max_seq_len, the too-long counter is incremented regardless of the
outcome, the record is discarded exactly when the maximum recorded
position falls STRICTLY beyond max_seq_len - 1 (the source checks
`max(positions) > max_seq_len - 1`, so an end position AT max_seq_len - 1
is kept, contrary to the claim; see the counterexample), and a kept record
carries the id sequence truncated to exactly max_seq_len. -/
theorem C4_truncation_and_discard (cfg : LocalConfig) (tok : Tokenizer)
    (ex : Example) (o : Orient)
    (hlong : ((buildTokens cfg tok o).1.map tok.tokenToId).length > cfg.max_seq_len) :
    (processOrientation cfg tok ex o).1 = true ∧
    ((processOrientation cfg tok ex o).2 = .ok none ↔
      (((buildTokens cfg tok o).2.foldl max 0 : Nat) : Int) > (cfg.max_seq_len : Int) - 1) ∧
    (∀ f, (processOrientation cfg tok ex o).2 = .ok (some f) →
      f.input_ids = ((buildTokens cfg tok o).1.map tok.tokenToId).take cfg.max_seq_len ∧
      f.input_ids.length = cfg.max_seq_len) := by
  refine ⟨?_, ?_, ?_⟩
  · exact (finalize_fst cfg tok ex (buildTokens cfg tok o).1 (buildTokens cfg tok o).2).trans
      (decide_eq_true hlong)
  · exact finalize_discard_iff cfg tok ex _ _ hlong
  · intro f hf
    obtain ⟨⟨lab, rfl⟩, -⟩ := finalize_inv cfg tok ex _ _ f hf
    have htr : truncIds cfg tok (buildTokens cfg tok o).1 =
        ((buildTokens cfg tok o).1.map tok.tokenToId).take cfg.max_seq_len := by
      unfold truncIds
      rw [if_pos hlong]
    have hlen : (truncIds cfg tok (buildTokens cfg tok o).1).length = cfg.max_seq_len := by
      rw [htr, List.length_take]
      omega
    constructor
    · show paddedIds cfg tok _ = _
      unfold paddedIds
      rw [hlen, Nat.sub_self, List.replicate_zero, List.append_nil, htr]
    · exact paddedIds_length cfg tok _

/-- C4 witness: the amended theorem applied to the over-long orientation of
ex4 under cfg4 (seven ids against max_seq_len 6): the counter is
incremented. -/
theorem C4_truncation_and_discard_witness :
    (processOrientation cfg4 tok0 ex4 (orient1 ex4)).1 = true :=
  (C4_truncation_and_discard cfg4 tok0 ex4 (orient1 ex4) (by decide)).1

/-- C4 counterexample: under cfg4 the orientation of ex4 is over-long (the
counter ends at 1), its largest recorded end position 5 falls AT
max_seq_len - 1 = 5, and the record is nevertheless kept — the claim says
a record whose end position falls at or beyond max_seq_len - 1 is
discarded. -/
theorem C4_end_at_boundary_is_kept :
    convert_dataset_to_features cfg4 tok0 [ex4] = .ok ([feat4], 1) ∧
    feat4.positions = [1, 2, 4, 5] ∧ (5 : Nat) = cfg4.max_seq_len - 1 := by
  exact ⟨rfl, rfl, by decide⟩

/-- C1 (amended): when `symmetric` is false the Feature Builder processes
exactly one orientation per example and, when that orientation is not
discarded for truncation, emits exactly one record for it — but the
orientation is the role-B-first one (orient1: text_2 with its span in the
Target slots, then text_1 as Synonym), not the role-A-first one the claim
states. The loop at line 169 enumerates [role-A-first, role-B-first] and
line 170 skips index 0 whenever symmetric is false. -/
theorem C1_nonsymmetric_single_swapped_record (cfg : LocalConfig) (tok : Tokenizer)
    (ex : Example) (f : WiCFeature2)
    (hsym : cfg.symmetric = false)
    (hkeep : (processOrientation cfg tok ex (orient1 ex)).2 = .ok (some f)) :
    orientationsOf cfg ex = [orient1 ex] ∧
    ∃ n, convert_dataset_to_features cfg tok [ex] = .ok ([f], n) := by
  have ho : orientationsOf cfg ex = [orient1 ex] := by
    simp [orientationsOf, hsym]
  refine ⟨ho, ⟨if (processOrientation cfg tok ex (orient1 ex)).1 then 0 + 1 else 0, ?_⟩⟩
  have hcl : convertLoop cfg tok [ex] [] 0 =
      .ok ([f], if (processOrientation cfg tok ex (orient1 ex)).1 then 0 + 1 else 0) := by
    simp only [convertLoop, ho, orientLoop, hkeep, List.nil_append]
  rw [convert_dataset_to_features, hcl]
  rfl

/-- C1 witness: the amended theorem applied to cfg1 and ex1; the single
record is feat1, built from the swapped orientation. -/
theorem C1_nonsymmetric_single_swapped_record_witness :
    orientationsOf cfg1 ex1 = [orient1 ex1] ∧
    ∃ n, convert_dataset_to_features cfg1 tok0 [ex1] = .ok ([feat1], n) :=
  C1_nonsymmetric_single_swapped_record cfg1 tok0 ex1 feat1 rfl rfl

/-- C1 counterexample: running the builder on ex1 (text_1 = a, text_2 = b)
with symmetric false yields one record whose ids are
[cls, b, a, pad...] with Target slots [1, 2): the Target span holds the
token of text_2 (id 98), not the token of text_1 (id 97), so the record
encodes the role-B-first orientation, contradicting the claim that text_1
comes first as Target. -/
theorem C1_record_encodes_text2_first :
    convert_dataset_to_features cfg1 tok0 [ex1] = .ok ([feat1], 0) ∧
    feat1.positions = [1, 2, 2, 3] ∧
    feat1.input_ids = [101, 98, 97, 1, 1, 1, 1, 1] ∧
    (tok0.tokenize ex1.text_2).map tok0.tokenToId = [98] ∧
    (tok0.tokenize ex1.text_1).map tok0.tokenToId = [97] ∧
    (98 : Nat) ≠ 97 := by
  exact ⟨rfl, rfl, rfl, by decide, by decide, by decide⟩

/-- C10 (amended): for every configuration whose pool_type is exactly one
of mean, max, first, combined and whose target_embeddings is exactly one
of featwise_mul, concat, featwise_mul_norm, combined, the classification
head input size fixed at construction equals the width of the merged
vector that extract_features produces (over hidden states of uniform width
and in-range nonempty spans). The strengthening of the original claim to
every accepted pool_type beginning with combined is false: the
construction-time size uses exact string equality while extract_features
uses a prefix test (see the counterexample). -/
theorem C10_head_width_matches_merged_width (cfg : LocalConfig)
    (norm : List ℚ → ℚ) (hs : List (List ℚ)) (s1 e1 s2 e2 h : Nat)
    (hp : cfg.pool_type = "mean" ∨ cfg.pool_type = "max" ∨
      cfg.pool_type = "first" ∨ cfg.pool_type = "combined")
    (hm : cfg.target_embeddings = "featwise_mul" ∨ cfg.target_embeddings = "concat" ∨
      cfg.target_embeddings = "featwise_mul_norm" ∨ cfg.target_embeddings = "combined")
    (hr : ∀ r ∈ hs, r.length = h)
    (h11 : s1 < e1) (h12 : e1 ≤ hs.length) (h21 : s2 < e2) (h22 : e2 ≤ hs.length) :
    ∃ v, extract_features cfg norm hs s1 e1 s2 e2 = .ok (some v) ∧
      v.length = headInputSize cfg h := by
  obtain ⟨v1, hp1, hl1⟩ := poolSpan_width cfg.pool_type hs s1 e1 h hp hr h11 h12
  obtain ⟨v2, hp2, hl2⟩ := poolSpan_width cfg.pool_type hs s2 e2 h hp hr h21 h22
  obtain ⟨v, hmv, hlv⟩ := merge_width norm cfg.target_embeddings v1 v2
    (if cfg.pool_type = "combined" then 3 * h else h) hm hl1 hl2
  refine ⟨v, ?_, ?_⟩
  · simp only [extract_features, hp1, hp2]
    rw [hmv]
  · rw [hlv, headInputSize_eq]
    by_cases hc : cfg.target_embeddings = "concat"
    · by_cases hpc : cfg.pool_type = "combined" <;> simp [hc, hpc]
    · by_cases hcb : cfg.target_embeddings = "combined"
      · by_cases hpc : cfg.pool_type = "combined" <;> simp [hc, hcb, hpc]
      · by_cases hpc : cfg.pool_type = "combined" <;> simp [hc, hcb, hpc]

/-- C10 witness: the amended theorem applied to cfg1 (mean pooling, concat
merge) over a one-row hidden state of width one. -/
theorem C10_head_width_matches_merged_width_witness :
    ∃ v, extract_features cfg1 norm1 [[1]] 0 1 0 1 = .ok (some v) ∧
      v.length = headInputSize cfg1 1 :=
  C10_head_width_matches_merged_width cfg1 norm1 [[1]] 0 1 0 1 1
    (Or.inl rfl) (Or.inr (Or.inl rfl))
    (by
      intro r hr
      rw [List.mem_singleton] at hr
      simp [hr])
    (by decide) (by decide) (by decide) (by decide)

/-- C10 counterexample: cfgX has pool_type combinedX, which
extract_features accepts (prefix test) and pools at triple width, while
the construction-time input size uses exact equality and stays at the base
width: over width-one hidden states the merged vector is 6 wide but the
head was built for width 2. -/
theorem C10_combined_prefix_width_mismatch :
    mergedWidth (extract_features cfgX norm1 [[5]] 0 1 0 1) = some 6 ∧
    headInputSize cfgX 1 = 2 ∧ (6 : Nat) ≠ 2 := by
  exact ⟨rfl, by decide, by decide⟩

end MclWic
